import Mathlib

/-!
Verification of the SCAP Prometheus exporter's result-parsing and
metric-aggregation engine (`scap_prometheus_exporter.py`) and of the
companion demonstration server (`metrics_server.py`).

The exporter's Python code is embedded shallowly:
* an XML document (as produced by `xml.etree.ElementTree`) is modelled as a
  tree of elements with a tag, an attribute list, optional text, and children;
* `SCAPParser.parse_results` becomes a pure function from a document, the
  caller-supplied hostname, the current time (`time.time()` threaded in
  explicitly) and the `datetime.fromisoformat(...).timestamp()` library
  routine (threaded in as a function, since it is an external collaborator)
  to `Option SCAPResult` — `none` models every path on which the Python
  function returns `None` (including the paths on which an exception is
  raised and caught by its outermost handler);
* the metrics dictionary with its twelve fixed keys becomes a record with
  those twelve fields, indexed by key name exactly as the Python dict is;
* `SCAPScanner.scan`'s exit-code decision, `PrometheusExporter.update_metrics`'s
  result store and the two HTTP `do_GET` handlers are embedded as small pure
  state-transition functions.
-/

namespace ScapExporter

/-- The XCCDF namespace URI of `SCAPParser.namespaces`. -/
def xccdfNS : String := "http://checklists.nist.gov/xccdf/1.2"

/-- An ElementTree qualified tag: `\x7bnamespace\x7dlocalname`. -/
def qn (localName : String) : String := "\x7b" ++ xccdfNS ++ "\x7d" ++ localName

/-- An XML element as `xml.etree.ElementTree` presents one: a (qualified)
tag, an attribute dictionary, the text directly inside the opening tag
(`None` when the element is empty), and the child elements in document
order. -/
inductive Xml where
  | elem (tag : String) (attrs : List (String × String)) (text : Option String)
      (children : List Xml)

def Xml.tag : Xml → String
  | .elem t _ _ _ => t

def Xml.attrs : Xml → List (String × String)
  | .elem _ a _ _ => a

def Xml.text : Xml → Option String
  | .elem _ _ tx _ => tx

def Xml.children : Xml → List Xml
  | .elem _ _ _ c => c

/-- ElementTree's `elem.get(name, default)`. -/
def Xml.getAttr (x : Xml) (name dflt : String) : String :=
  ((x.attrs.lookup name).getD dflt)

/-- ElementTree's `elem.get(name)` with no default. -/
def Xml.getAttrOpt (x : Xml) (name : String) : Option String :=
  x.attrs.lookup name

/-- ElementTree's `elem.find(tag)` with a relative single-step path: the first direct
child with the given qualified tag, in document order. -/
def findChildTag (x : Xml) (t : String) : Option Xml :=
  x.children.find? (fun c => c.tag == t)

mutual

/-- ElementTree's `elem.find('.//…')`: the first descendant (not the element itself)
satisfying the predicate, in document order. -/
def Xml.findDesc (p : Xml → Bool) : Xml → Option Xml
  | .elem _ _ _ ch => Xml.findDescList p ch

def Xml.findDescList (p : Xml → Bool) : List Xml → Option Xml
  | [] => none
  | c :: rest =>
    if p c then some c
    else
      match Xml.findDesc p c with
      | some r => some r
      | none => Xml.findDescList p rest

end

mutual

/-- Every element of the document: the root and all its descendants. -/
def Xml.allElems : Xml → List Xml
  | .elem t a tx ch => .elem t a tx ch :: Xml.allElemsList ch

def Xml.allElemsList : List Xml → List Xml
  | [] => []
  | c :: rest => c.allElems ++ Xml.allElemsList rest

end

/-- Python's `str.lower`, as applied to result-status and severity text.
`Char.toLower` matches Python on the ASCII range, which covers every
keyword the lowered text is compared against. -/
def pyLower (s : String) : String := ⟨s.data.map Char.toLower⟩

/-- Python's `c in s` for a single character `c`. -/
def pyContainsChar (s : String) (c : Char) : Bool := s.data.contains c

/-- Python's `str.replace(pattern, replacement)` for a non-empty pattern:
replace non-overlapping occurrences left to right. Written with explicit
fuel (one unit per character suffices, since every step either consumes at
least one character or stops). -/
def pyReplaceList (pat repl : List Char) : Nat → List Char → List Char
  | _, [] => []
  | 0, l => l
  | fuel + 1, c :: rest =>
    if pat.isPrefixOf (c :: rest) ∧ pat ≠ [] then
      repl ++ pyReplaceList pat repl fuel (List.drop pat.length (c :: rest))
    else c :: pyReplaceList pat repl fuel rest

def pyReplace (s pattern replacement : String) : String :=
  ⟨pyReplaceList pattern.data replacement.data s.data.length s.data⟩

/-- The `metrics` counter dictionary of `parse_results`, lines 104–117: a
fixed set of twelve keys, each starting at 0. -/
structure Metrics where
  total_rules : Nat
  passed_rules : Nat
  failed_rules : Nat
  error_rules : Nat
  unknown_rules : Nat
  notapplicable_rules : Nat
  notchecked_rules : Nat
  informational_rules : Nat
  severity_high_failed : Nat
  severity_medium_failed : Nat
  severity_low_failed : Nat
  severity_info_failed : Nat
deriving DecidableEq

def initMetrics : Metrics := ⟨0, 0, 0, 0, 0, 0, 0, 0, 0, 0, 0, 0⟩

/-- The key set of the `metrics` dictionary (membership is what
`severity_key in metrics` tests). -/
def metricKeys : List String :=
  ["total_rules", "passed_rules", "failed_rules", "error_rules",
   "unknown_rules", "notapplicable_rules", "notchecked_rules",
   "informational_rules", "severity_high_failed", "severity_medium_failed",
   "severity_low_failed", "severity_info_failed"]

/-- Python's `metrics[key] += 1`: increment the named counter; a key outside the
dictionary's key set changes nothing (the code only ever indexes with keys
it has checked or that come from the fixed status table). -/
def Metrics.bump (m : Metrics) (key : String) : Metrics :=
  if key = "total_rules" then { m with total_rules := m.total_rules + 1 }
  else if key = "passed_rules" then { m with passed_rules := m.passed_rules + 1 }
  else if key = "failed_rules" then { m with failed_rules := m.failed_rules + 1 }
  else if key = "error_rules" then { m with error_rules := m.error_rules + 1 }
  else if key = "unknown_rules" then { m with unknown_rules := m.unknown_rules + 1 }
  else if key = "notapplicable_rules" then
    { m with notapplicable_rules := m.notapplicable_rules + 1 }
  else if key = "notchecked_rules" then
    { m with notchecked_rules := m.notchecked_rules + 1 }
  else if key = "informational_rules" then
    { m with informational_rules := m.informational_rules + 1 }
  else if key = "severity_high_failed" then
    { m with severity_high_failed := m.severity_high_failed + 1 }
  else if key = "severity_medium_failed" then
    { m with severity_medium_failed := m.severity_medium_failed + 1 }
  else if key = "severity_low_failed" then
    { m with severity_low_failed := m.severity_low_failed + 1 }
  else if key = "severity_info_failed" then
    { m with severity_info_failed := m.severity_info_failed + 1 }
  else m

/-- The `status_mapping` table of lines 134–142. -/
def status_mapping : List (String × String) :=
  [("pass", "passed_rules"), ("fail", "failed_rules"), ("error", "error_rules"),
   ("unknown", "unknown_rules"), ("notapplicable", "notapplicable_rules"),
   ("notchecked", "notchecked_rules"), ("informational", "informational_rules")]

/-- Lines 144–145: `if result_status in status_mapping:
metrics[status_mapping[result_status]] += 1`. -/
def statusBump (m : Metrics) (result_status : String) : Metrics :=
  match status_mapping.lookup result_status with
  | some key => m.bump key
  | none => m

/-- Lines 159–162 (inside `if result_status == 'fail'`): build
the key `severity_` + severity + `_failed` and increment it when it is a key of the
metrics dictionary. -/
def sevBump (m : Metrics) (severity : String) : Metrics :=
  let severity_key := "severity_" ++ severity ++ "_failed"
  if metricKeys.contains severity_key then m.bump severity_key else m

/-- One entry of `rule_details` (lines 165–170). -/
structure RuleDetail where
  rule_id : String
  title : String
  result : String
  severity : String
deriving DecidableEq

/-- The `SCAPResult` dataclass. `hostname` is an `Option` because the Python
code can store `None` there: `target_elem.text` is `None` for an empty
`target` element and is stored unchanged. -/
structure SCAPResult where
  hostname : Option String
  profile : String
  scan_time : ℚ
  total_rules : Nat
  passed_rules : Nat
  failed_rules : Nat
  error_rules : Nat
  unknown_rules : Nat
  notapplicable_rules : Nat
  notchecked_rules : Nat
  informational_rules : Nat
  compliance_score : ℚ
  severity_high_failed : Nat
  severity_medium_failed : Nat
  severity_low_failed : Nat
  severity_info_failed : Nat
  benchmark_id : String
  benchmark_version : String
  rule_details : List RuleDetail
deriving DecidableEq

/-- The body of the `for rule_result in …` loop (lines 122–170) for one
`rule-result` element, acting on the `(metrics, rule_details)` state.
`none` models an exception escaping the loop to the outermost handler:
`result_elem.text.lower()` raises `AttributeError` when the `result`
element has no text, and the XPath predicate `[@id="…"]` built by f-string
raises `SyntaxError` when the rule id itself contains a double quote. -/
def processRuleResult (benchmark : Xml) (st : Metrics × List RuleDetail)
    (rr : Xml) : Option (Metrics × List RuleDetail) :=
  let rule_id := rr.getAttr "idref" ""
  let m := st.1.bump "total_rules"
  match findChildTag rr (qn "result") with
  | none => some (m, st.2)
  | some result_elem =>
    match result_elem.text with
    | none => none
    | some t =>
      let result_status := pyLower t
      let m := statusBump m result_status
      if pyContainsChar rule_id '\"' then none
      else
        let rule_def := benchmark.findDesc (fun x =>
          x.tag == qn "Rule" && x.getAttrOpt "id" == some rule_id)
        let severity := match rule_def with
          | some rd => pyLower (rd.getAttr "severity" "unknown")
          | none => "unknown"
        let rule_title := match rule_def with
          | some rd =>
            match findChildTag rd (qn "title") with
            | some te =>
              match te.text with
              | some s => if s = "" then rule_id else s
              | none => rule_id
            | none => rule_id
          | none => rule_id
        let m := if result_status = "fail" then sevBump m severity else m
        some (m, st.2 ++ [⟨rule_id, rule_title, result_status, severity⟩])

/-- The whole rule-result loop: process the elements in document order; an
exception anywhere aborts everything. -/
def processRuleResults (benchmark : Xml) :
    Metrics × List RuleDetail → List Xml → Option (Metrics × List RuleDetail)
  | st, [] => some st
  | st, rr :: rest =>
    match processRuleResult benchmark st rr with
    | none => none
    | some st2 => processRuleResults benchmark st2 rest

/-- Python's `hostname or 'unknown'`: `None` and the empty string are both
falsy. -/
def orUnknown : Option String → String
  | none => "unknown"
  | some s => if s = "" then "unknown" else s

/-- Lines 79–85: the document root itself when it is a `TestResult`,
otherwise the first `TestResult` descendant. -/
def testResultOf (root : Xml) : Option Xml :=
  if root.tag == qn "TestResult" then some root
  else root.findDesc (fun x => x.tag == qn "TestResult")

/-- The parser entry point `SCAPParser.parse_results` (lines 63–193). `now` is the value of
`time.time()`; `fromisoformat` models
`datetime.fromisoformat(s).timestamp()`, returning `none` when the library
raises (the inner bare `except: pass` keeps `scan_time = now` then). -/
def parse_results (root : Xml) (hostname : Option String) (now : ℚ)
    (fromisoformat : String → Option ℚ) : Option SCAPResult :=
  match root.findDesc (fun x => x.tag == qn "Benchmark") with
  | none => none
  | some benchmark =>
    let benchmark_id := benchmark.getAttr "id" "unknown"
    let benchmark_version := benchmark.getAttr "version" "unknown"
    match testResultOf root with
    | none => none
    | some test_result =>
      let profile := match findChildTag test_result (qn "profile") with
        | some pe => pe.getAttr "idref" "unknown"
        | none => "unknown"
      let target_hostname : Option String :=
        match findChildTag test_result (qn "target") with
        | some te => te.text
        | none => some (orUnknown hostname)
      let scan_time : ℚ :=
        match findChildTag test_result (qn "start-time") with
        | none => now
        | some ste =>
          match ste.text with
          | none => now
          | some s => (fromisoformat (pyReplace s "Z" "+00:00")).getD now
      match processRuleResults benchmark (initMetrics, [])
          (test_result.children.filter (fun c => c.tag == qn "rule-result")) with
      | none => none
      | some (m, rule_details) =>
        let compliance_score : ℚ :=
          if m.total_rules > 0 then
            let applicable : Int :=
              (m.total_rules : Int) - m.notapplicable_rules - m.notchecked_rules
            if applicable > 0 then
              ((m.passed_rules : ℚ) / (applicable : ℚ)) * 100
            else 0
          else 0
        some ⟨target_hostname, profile, scan_time, m.total_rules,
          m.passed_rules, m.failed_rules, m.error_rules, m.unknown_rules,
          m.notapplicable_rules, m.notchecked_rules, m.informational_rules,
          compliance_score, m.severity_high_failed, m.severity_medium_failed,
          m.severity_low_failed, m.severity_info_failed,
          benchmark_id, benchmark_version, rule_details⟩

/-- What `SCAPScanner.scan` does once the subprocess has returned: either
the path of the results file, or `None` (lines 238–247). -/
inductive ScanOutcome where
  | success (results_file : String)
  | failure
deriving DecidableEq

/-- The exit-code decision of `SCAPScanner.scan` (lines 238–247): only
`returncode > 2` is an error; on error the results file is unlinked
(second component `true`) and `None` is returned, otherwise the results
file path is returned and the file kept. -/
def scanDecision (returncode : Int) (results_file : String) :
    ScanOutcome × Bool :=
  if returncode > 2 then (ScanOutcome.failure, true)
  else (ScanOutcome.success results_file, false)

/-- Python `f"\x7bresult.hostname\x7d"` on the `Optional` hostname: `None`
formats as the string `"None"`. -/
def pyStr : Option String → String
  | none => "None"
  | some s => s

/-- The storage key of `update_metrics` (line 350):
`f"\x7bresult.hostname\x7d_\x7bresult.profile\x7d"`. -/
def storeKey (r : SCAPResult) : String := pyStr r.hostname ++ "_" ++ r.profile

/-- Python's `dict[k] = v` on an insertion-ordered dictionary rendered as an
association list: replace the value of an existing key, else append. -/
def dictSet {α : Type} : List (String × α) → String → α → List (String × α)
  | [], k, v => [(k, v)]
  | (k1, v1) :: rest, k, v =>
    if k1 = k then (k1, v) :: rest else (k1, v1) :: dictSet rest k v

/-- Line 351: `self.latest_results[key] = result`. -/
def updateStore (store : List (String × SCAPResult)) (r : SCAPResult) :
    List (String × SCAPResult) :=
  dictSet store (storeKey r) r

/-- What an HTTP handler sends back, as far as the claims are concerned:
the status code and the `Content-Type` header (`none` for `send_error`,
which picks its own error page type). -/
structure HttpResponse where
  status : Nat
  contentType : Option String
deriving DecidableEq

/-- The observable state of a `PrometheusExporter` as the HTTP layer sees
it: whether any successful `update_metrics` call has ever happened, and
the `latest_results` store. The metric registry itself exists from
construction on (it is populated in `_setup_metrics`), so `generate_latest`
succeeds whether or not an update has happened. -/
structure ExporterState where
  updatedEver : Bool
  latest_results : List (String × SCAPResult)

/-- The handler `MetricsHTTPHandler.do_GET` of `scap_prometheus_exporter.py`
(lines 363–388), on the path dispatch level. The `/metrics` branch calls
`generate_latest` on the registry — which is present from construction —
and answers 200 with `text/plain; charset=utf-8`; there is no 503 branch
anywhere in this handler. -/
def MetricsHTTPHandler.do_GET (_st : ExporterState) (path : String) :
    HttpResponse :=
  if path = "/metrics" then ⟨200, some "text/plain; charset=utf-8"⟩
  else if path = "/health" then ⟨200, some "application/json"⟩
  else if path = "/results" then ⟨200, some "application/json"⟩
  else ⟨404, none⟩

/-- The handler `MetricsHandler.do_GET` of `metrics_server.py` (lines 22–42):
the `/metrics` branch answers 503 exactly when the module-global
`exporter` is still `None`, i.e. before `main` has constructed it — a
condition independent of whether any metrics update has happened. -/
def MetricsHandler.do_GET (exporterSet : Bool) (path : String) :
    HttpResponse :=
  if path = "/metrics" then
    if exporterSet then ⟨200, some "text/plain; charset=utf-8"⟩
    else ⟨503, none⟩
  else if path = "/health" then ⟨200, some "application/json"⟩
  else ⟨404, none⟩

/-! ### The status buckets and severity buckets of the metrics dictionary -/

/-- The sum of the seven per-status counters. -/
def bucketSum (m : Metrics) : Nat :=
  m.passed_rules + m.failed_rules + m.error_rules + m.unknown_rules +
    m.notapplicable_rules + m.notchecked_rules + m.informational_rules

/-- The sum of the four per-severity failure counters. -/
def sevSum (m : Metrics) : Nat :=
  m.severity_high_failed + m.severity_medium_failed +
    m.severity_low_failed + m.severity_info_failed

theorem lookup_status_cases (s : String) :
    status_mapping.lookup s = none ∨
      ∃ k, status_mapping.lookup s = some k ∧
        k ∈ ["passed_rules", "failed_rules", "error_rules", "unknown_rules",
             "notapplicable_rules", "notchecked_rules", "informational_rules"] := by
  unfold status_mapping
  simp only [List.lookup_cons]
  repeat' split
  all_goals simp

theorem lookup_failed_inv (s : String)
    (h : status_mapping.lookup s = some "failed_rules") : s = "fail" := by
  unfold status_mapping at h
  simp only [List.lookup_cons] at h
  repeat' split at h
  all_goals simp_all

theorem contains_metricKeys (k : String) (h : metricKeys.contains k = true) :
    k ∈ metricKeys := by
  simpa [List.contains] using h

/-- The first character of a constructed severity key is always `s`. -/
theorem sevKey_head (s : String) :
    ("severity_" ++ s ++ "_failed").data.head? = some 's' := by
  obtain ⟨l⟩ := s
  rfl

/-- A constructed severity key never equals a key that does not start with
`s`. -/
theorem sevKey_ne (s K : String) (hK : K.data.head? ≠ some 's') :
    "severity_" ++ s ++ "_failed" ≠ K := by
  intro h
  apply hK
  rw [← h]
  exact sevKey_head s

theorem statusBump_total (m : Metrics) (s : String) :
    (statusBump m s).total_rules = m.total_rules := by
  unfold statusBump
  rcases lookup_status_cases s with h | ⟨k, h, hk⟩
  · rw [h]
  · rw [h]
    fin_cases hk <;> rfl

theorem statusBump_sevSum (m : Metrics) (s : String) :
    sevSum (statusBump m s) = sevSum m := by
  unfold statusBump
  rcases lookup_status_cases s with h | ⟨k, h, hk⟩
  · rw [h]
  · rw [h]
    fin_cases hk <;> rfl

theorem statusBump_bucketSum_le (m : Metrics) (s : String) :
    bucketSum (statusBump m s) ≤ bucketSum m + 1 := by
  unfold statusBump
  rcases lookup_status_cases s with h | ⟨k, h, hk⟩
  · rw [h]; exact Nat.le_succ _
  · rw [h]
    fin_cases hk <;> simp [bucketSum, Metrics.bump] <;> omega

theorem statusBump_failed_mono (m : Metrics) (s : String) :
    m.failed_rules ≤ (statusBump m s).failed_rules := by
  unfold statusBump
  rcases lookup_status_cases s with h | ⟨k, h, hk⟩
  · rw [h]
  · rw [h]
    fin_cases hk <;> simp [Metrics.bump]

theorem statusBump_fail (m : Metrics) :
    statusBump m "fail" = m.bump "failed_rules" := rfl

theorem statusBump_not_fail (m : Metrics) (s : String) (hs : s ≠ "fail") :
    (statusBump m s).failed_rules = m.failed_rules := by
  unfold statusBump
  rcases lookup_status_cases s with h | ⟨k, h, hk⟩
  · rw [h]
  · rw [h]
    fin_cases hk <;> first
      | rfl
      | exact absurd (lookup_failed_inv s h) hs

theorem sevBump_spec (m : Metrics) (s : String) :
    (sevBump m s).total_rules = m.total_rules ∧
    bucketSum (sevBump m s) = bucketSum m ∧
    (sevBump m s).failed_rules = m.failed_rules ∧
    sevSum (sevBump m s) ≤ sevSum m + 1 := by
  have he : sevBump m s =
      if metricKeys.contains ("severity_" ++ s ++ "_failed") = true
      then m.bump ("severity_" ++ s ++ "_failed") else m := rfl
  rw [he]
  split
  case isTrue h =>
    have hk := contains_metricKeys _ h
    simp only [metricKeys, List.mem_cons, List.not_mem_nil, or_false] at hk
    rcases hk with h1 | h1 | h1 | h1 | h1 | h1 | h1 | h1 | h1 | h1 | h1 | h1
    all_goals first
      | exact absurd h1 (sevKey_ne s _ (by decide))
      | (rw [h1]; refine ⟨rfl, rfl, rfl, ?_⟩; simp [sevSum, Metrics.bump]; omega)
  case isFalse h => exact ⟨rfl, rfl, rfl, by omega⟩

theorem bump_total_fields (m : Metrics) :
    (m.bump "total_rules").total_rules = m.total_rules + 1 ∧
    bucketSum (m.bump "total_rules") = bucketSum m ∧
    sevSum (m.bump "total_rules") = sevSum m ∧
    (m.bump "total_rules").failed_rules = m.failed_rules :=
  ⟨rfl, rfl, rfl, rfl⟩

theorem bump_failed_fields (m : Metrics) :
    (m.bump "failed_rules").total_rules = m.total_rules ∧
    bucketSum (m.bump "failed_rules") = bucketSum m + 1 ∧
    sevSum (m.bump "failed_rules") = sevSum m ∧
    (m.bump "failed_rules").failed_rules = m.failed_rules + 1 := by
  refine ⟨rfl, ?_, rfl, rfl⟩
  simp [bucketSum, Metrics.bump]
  omega

theorem processRuleResult_spec (b : Xml) (st st' : Metrics × List RuleDetail)
    (rr : Xml) (h : processRuleResult b st rr = some st') :
    st'.1.total_rules = st.1.total_rules + 1 ∧
    bucketSum st'.1 ≤ bucketSum st.1 + 1 ∧
    sevSum st'.1 + st.1.failed_rules ≤ sevSum st.1 + st'.1.failed_rules ∧
    st.1.failed_rules ≤ st'.1.failed_rules := by
  obtain ⟨h1, h2, h3, h4⟩ := bump_total_fields st.1
  unfold processRuleResult at h
  split at h
  next hre =>
    obtain rfl : (st.1.bump "total_rules", st.2) = st' := by simpa using h
    exact ⟨h1, by rw [h2]; omega, by rw [h3, h4], by rw [h4]⟩
  next re hre =>
    split at h
    next htext => exact absurd h (by simp)
    next t htext =>
      by_cases hq : pyContainsChar (rr.getAttr "idref" "") '\"' = true
      · simp only [hq, if_true] at h
        exact absurd h (by simp)
      · simp only [hq, if_false, Bool.false_eq_true] at h
        by_cases hf : pyLower t = "fail"
        · rw [hf] at h
          simp only [if_pos rfl, if_true] at h
          obtain rfl := Option.some.inj h
          obtain ⟨g1, g2, g3, g4⟩ :=
            bump_failed_fields (st.1.bump "total_rules")
          obtain ⟨k1, k2, k3, k4⟩ :=
            sevBump_spec ((st.1.bump "total_rules").bump "failed_rules")
              (match Xml.findDesc (fun x =>
                  x.tag == qn "Rule" && x.getAttrOpt "id" == some (rr.getAttr "idref" "")) b with
                | some rd => pyLower (rd.getAttr "severity" "unknown")
                | none => "unknown")
          rw [statusBump_fail]
          dsimp only
          refine ⟨by omega, by omega, by omega, by omega⟩
        · simp only [if_neg hf] at h
          obtain rfl := Option.some.inj h
          have g1 := statusBump_total (st.1.bump "total_rules") (pyLower t)
          have g2 := statusBump_bucketSum_le (st.1.bump "total_rules") (pyLower t)
          have g3 := statusBump_sevSum (st.1.bump "total_rules") (pyLower t)
          have g4 := statusBump_not_fail (st.1.bump "total_rules") (pyLower t) hf
          dsimp only
          exact ⟨by omega, by omega, by omega, by omega⟩

/-- The loop invariant over a whole rule-result list: the total-rule
counter gains at least as much as the bucket sum, and the failed counter
at least as much as the severity sum. -/
theorem processRuleResults_spec (b : Xml) (l : List Xml)
    (st st' : Metrics × List RuleDetail)
    (h : processRuleResults b st l = some st') :
    bucketSum st'.1 + st.1.total_rules ≤ bucketSum st.1 + st'.1.total_rules ∧
    sevSum st'.1 + st.1.failed_rules ≤ sevSum st.1 + st'.1.failed_rules := by
  induction l generalizing st with
  | nil =>
    obtain rfl : st = st' := by simpa [processRuleResults] using h
    omega
  | cons rr rest ih =>
    unfold processRuleResults at h
    split at h
    next => exact absurd h (by simp)
    next st2 hstep =>
      obtain ⟨s1, s2, s3, s4⟩ := processRuleResult_spec b st st2 rr hstep
      obtain ⟨t1, t2⟩ := ih st2 h
      omega

/-- Inversion of a successful `parse_results`: the benchmark and
test-result elements it located, the final loop state, and how each field
of the returned `SCAPResult` is built from it. -/
theorem parse_results_inv (root : Xml) (hn : Option String) (now : ℚ)
    (iso : String → Option ℚ) (r : SCAPResult)
    (h : parse_results root hn now iso = some r) :
    ∃ benchmark tr m,
      root.findDesc (fun x => x.tag == qn "Benchmark") = some benchmark ∧
      testResultOf root = some tr ∧
      processRuleResults benchmark (initMetrics, [])
        (tr.children.filter (fun c => c.tag == qn "rule-result")) =
          some (m, r.rule_details) ∧
      r.total_rules = m.total_rules ∧
      r.passed_rules = m.passed_rules ∧
      r.failed_rules = m.failed_rules ∧
      r.error_rules = m.error_rules ∧
      r.unknown_rules = m.unknown_rules ∧
      r.notapplicable_rules = m.notapplicable_rules ∧
      r.notchecked_rules = m.notchecked_rules ∧
      r.informational_rules = m.informational_rules ∧
      r.severity_high_failed = m.severity_high_failed ∧
      r.severity_medium_failed = m.severity_medium_failed ∧
      r.severity_low_failed = m.severity_low_failed ∧
      r.severity_info_failed = m.severity_info_failed ∧
      r.compliance_score =
        (if m.total_rules > 0 then
          if ((m.total_rules : Int) - m.notapplicable_rules -
              m.notchecked_rules) > 0 then
            ((m.passed_rules : ℚ) /
              (((m.total_rules : Int) - m.notapplicable_rules -
                m.notchecked_rules : Int) : ℚ)) * 100
          else 0
        else 0) := by
  unfold parse_results at h
  split at h
  next => exact absurd h (by simp)
  next benchmark hb =>
    split at h
    next => exact absurd h (by simp)
    next tr htr =>
      cases hp : processRuleResults benchmark (initMetrics, [])
          (List.filter (fun c => c.tag == qn "rule-result") tr.children) with
      | none =>
        rw [hp] at h
        exact absurd h (by simp)
      | some st =>
        obtain ⟨m, dl⟩ := st
        rw [hp] at h
        simp only at h
        obtain rfl := Option.some.inj h
        exact ⟨benchmark, tr, m, hb, htr, hp, rfl, rfl, rfl, rfl, rfl, rfl,
          rfl, rfl, rfl, rfl, rfl, rfl, rfl⟩

/-! ### Concrete documents used by counterexamples and witnesses -/

/-- A benchmark element with id `bid`, version `1.0` and no rule
definitions. -/
def exBench : Xml :=
  .elem (qn "Benchmark") [("id", "bid"), ("version", "1.0")] none []

/-- A test-result document whose single rule-result carries the status
text `waived`, which is not one of the seven known status keywords. -/
def exDocU : Xml :=
  .elem (qn "TestResult") [] none
    [.elem (qn "benchmark") [] none [exBench],
     .elem (qn "rule-result") [("idref", "r1")] none
       [.elem (qn "result") [] (some "waived") []]]

/-- A test-result document with profile, target and start-time but no
rule-result elements. -/
def exDoc0 : Xml :=
  .elem (qn "TestResult") [] none
    [.elem (qn "benchmark") [] none [exBench],
     .elem (qn "profile") [("idref", "prof")] none [],
     .elem (qn "target") [] (some "host1") [],
     .elem (qn "start-time") [] (some "2024-01-01T12:00:00Z") []]

/-- A concrete stand-in for `datetime.fromisoformat(…).timestamp()` that
succeeds exactly on `exDoc0`'s normalized start-time. -/
def exIso : String → Option ℚ := fun s =>
  if s = "2024-01-01T12:00:00+00:00" then some 1704110400 else none

/-! ### The claims -/

/-- C1 (counterexample): on `exDocU` — one rule-result with the
unknown status text `waived` — `parse_results` succeeds with
`total_rules = 1` while every status bucket is 0, so
`total = passed+failed+error+unknown+notapplicable+notchecked+informational`
fails. -/
theorem C1_counterexample :
    ¬ ∀ (r : SCAPResult), parse_results exDocU none 0 (fun _ => none) = some r →
        r.total_rules = r.passed_rules + r.failed_rules + r.error_rules +
          r.unknown_rules + r.notapplicable_rules + r.notchecked_rules +
          r.informational_rules := by
  intro hall
  obtain ⟨r, hr⟩ : ∃ r, parse_results exDocU none 0 (fun _ => none) = some r :=
    ⟨_, rfl⟩
  have h2 := hall r hr
  have h3 : (parse_results exDocU none 0 (fun _ => none)).map
      (fun r => (r.total_rules,
        r.passed_rules + r.failed_rules + r.error_rules + r.unknown_rules +
          r.notapplicable_rules + r.notchecked_rules +
          r.informational_rules)) = some (1, 0) := by decide
  rw [hr] at h3
  simp at h3
  omega

/-- C1 (amended): for every successfully parsed document the seven
status buckets sum to at most `total_rules`; the difference counts
the rule-results whose result element is missing or whose status text
matches no known keyword. -/
theorem C1_amended_buckets_le_total (root : Xml) (hn : Option String)
    (now : ℚ) (iso : String → Option ℚ) (r : SCAPResult)
    (h : parse_results root hn now iso = some r) :
    r.passed_rules + r.failed_rules + r.error_rules + r.unknown_rules +
      r.notapplicable_rules + r.notchecked_rules + r.informational_rules ≤
      r.total_rules := by
  obtain ⟨b, tr, m, hb, htr, hp, e1, e2, e3, e4, e5, e6, e7, e8,
    _, _, _, _, _⟩ := parse_results_inv root hn now iso r h
  obtain ⟨t1, _⟩ := processRuleResults_spec b _ _ _ hp
  have t1' : bucketSum m + 0 ≤ 0 + m.total_rules := t1
  rw [e1, e2, e3, e4, e5, e6, e7, e8]
  unfold bucketSum at t1'
  omega

/-- The record `parse_results` produces for `exDoc0` with caller hostname
`none`, `now = 0` and `exIso`. -/
def exResult0 : SCAPResult :=
  ⟨some "host1", "prof", 1704110400, 0, 0, 0, 0, 0, 0, 0, 0, 0, 0, 0, 0, 0,
   "bid", "1.0", []⟩

/-- C1 (witness): the amended bound instantiated on the concrete
document `exDoc0`. -/
theorem C1_amended_buckets_le_total_witness :
    exResult0.passed_rules + exResult0.failed_rules + exResult0.error_rules +
      exResult0.unknown_rules + exResult0.notapplicable_rules +
      exResult0.notchecked_rules + exResult0.informational_rules ≤
      exResult0.total_rules :=
  C1_amended_buckets_le_total exDoc0 none 0 exIso exResult0 (by rfl)

/-- C3: for every successfully parsed document the four severity
failure buckets sum to at most `failed_rules`: a severity bucket is
incremented only for failed rules whose resolved severity is
high/medium/low/info, at most one bucket per failed rule. -/
theorem C3_severity_le_failed (root : Xml) (hn : Option String) (now : ℚ)
    (iso : String → Option ℚ) (r : SCAPResult)
    (h : parse_results root hn now iso = some r) :
    r.severity_high_failed + r.severity_medium_failed +
      r.severity_low_failed + r.severity_info_failed ≤ r.failed_rules := by
  obtain ⟨b, tr, m, hb, htr, hp, _, _, e3, _, _, _, _, _,
    e9, e10, e11, e12, _⟩ := parse_results_inv root hn now iso r h
  obtain ⟨_, t2⟩ := processRuleResults_spec b _ _ _ hp
  have t2' : sevSum m + 0 ≤ 0 + m.failed_rules := t2
  rw [e3, e9, e10, e11, e12]
  unfold sevSum at t2'
  omega

/-- C3 (witness): the severity bound instantiated on the concrete
document `exDoc0`. -/
theorem C3_severity_le_failed_witness :
    exResult0.severity_high_failed + exResult0.severity_medium_failed +
      exResult0.severity_low_failed + exResult0.severity_info_failed ≤
      exResult0.failed_rules :=
  C3_severity_le_failed exDoc0 none 0 exIso exResult0 (by rfl)

/-- C2: for every successful parse, `compliance_score` equals
`passed / (total − notapplicable − notchecked) · 100` when that
denominator is positive and `0` otherwise (in particular with zero
rule-results `total_rules = 0` and the score is `0` with no division
error), and the score always lies in `[0, 100]`. -/
theorem C2_compliance_score (root : Xml) (hn : Option String) (now : ℚ)
    (iso : String → Option ℚ) (r : SCAPResult)
    (h : parse_results root hn now iso = some r) :
    (0 < (r.total_rules : Int) - r.notapplicable_rules - r.notchecked_rules →
      r.compliance_score = (r.passed_rules : ℚ) /
        (((r.total_rules : Int) - r.notapplicable_rules -
          r.notchecked_rules : Int) : ℚ) * 100) ∧
    ((r.total_rules : Int) - r.notapplicable_rules - r.notchecked_rules ≤ 0 →
      r.compliance_score = 0) ∧
    0 ≤ r.compliance_score ∧ r.compliance_score ≤ 100 := by
  obtain ⟨b, tr, m, hb, htr, hp, e1, e2, _, _, _, e6, e7, _,
    _, _, _, _, escore⟩ := parse_results_inv root hn now iso r h
  obtain ⟨t1, _⟩ := processRuleResults_spec b _ _ _ hp
  have t1' : bucketSum m + 0 ≤ 0 + m.total_rules := t1
  unfold bucketSum at t1'
  have hpnn : m.passed_rules + m.notapplicable_rules + m.notchecked_rules ≤
      m.total_rules := by omega
  rw [e1, e2, e6, e7, escore]
  by_cases hpos :
      0 < (m.total_rules : Int) - m.notapplicable_rules - m.notchecked_rules
  · have htot : 0 < m.total_rules := by omega
    rw [if_pos htot, if_pos hpos]
    have hple : (m.passed_rules : Int) ≤
        (m.total_rules : Int) - m.notapplicable_rules - m.notchecked_rules := by
      omega
    have hDq : (0 : ℚ) < (((m.total_rules : Int) - m.notapplicable_rules -
        m.notchecked_rules : Int) : ℚ) := by exact_mod_cast hpos
    have hpq : (m.passed_rules : ℚ) ≤ (((m.total_rules : Int) -
        m.notapplicable_rules - m.notchecked_rules : Int) : ℚ) := by
      exact_mod_cast hple
    refine ⟨fun _ => rfl, fun hc => absurd hpos (by omega), ?_, ?_⟩
    · positivity
    · calc (m.passed_rules : ℚ) / (((m.total_rules : Int) -
            m.notapplicable_rules - m.notchecked_rules : Int) : ℚ) * 100
          ≤ 1 * 100 := by
            apply mul_le_mul_of_nonneg_right _ (by norm_num)
            exact (div_le_one hDq).mpr hpq
      _ = 100 := by norm_num
  · push_neg at hpos
    have hz : (if m.total_rules > 0 then
        if ((m.total_rules : Int) - m.notapplicable_rules -
            m.notchecked_rules) > 0 then
          ((m.passed_rules : ℚ) / (((m.total_rules : Int) -
            m.notapplicable_rules - m.notchecked_rules : Int) : ℚ)) * 100
        else 0
      else 0) = (0 : ℚ) := by
      by_cases htot : m.total_rules > 0
      · rw [if_pos htot, if_neg (by omega)]
      · rw [if_neg htot]
    rw [hz]
    exact ⟨fun hc => absurd hc (by omega), fun _ => rfl, le_refl 0, by norm_num⟩

/-- C2 (witness): the score characterization instantiated on the
concrete document `exDoc0`, which has zero rule-results. -/
theorem C2_compliance_score_witness :
    ((0 : Int) < (exResult0.total_rules : Int) -
        exResult0.notapplicable_rules - exResult0.notchecked_rules →
      exResult0.compliance_score = (exResult0.passed_rules : ℚ) /
        (((exResult0.total_rules : Int) - exResult0.notapplicable_rules -
          exResult0.notchecked_rules : Int) : ℚ) * 100) ∧
    ((exResult0.total_rules : Int) - exResult0.notapplicable_rules -
        exResult0.notchecked_rules ≤ 0 →
      exResult0.compliance_score = 0) ∧
    0 ≤ exResult0.compliance_score ∧ exResult0.compliance_score ≤ 100 :=
  C2_compliance_score exDoc0 none 0 exIso exResult0 (by rfl)

/-- The single rule-result element of `exDocU` and its result child. -/
def exRR : Xml :=
  .elem (qn "rule-result") [("idref", "r1")] none
    [.elem (qn "result") [] (some "waived") []]

def exRE : Xml := .elem (qn "result") [] (some "waived") []

/-- C4 (counterexample): on `exDocU`, whose single rule-result has the
unknown status `waived`, the detail list is not empty — the parser appends
a detail entry even for an unmatched status, against the claim that no
detail slot is consumed. -/
theorem C4_counterexample :
    ¬ ∀ (r : SCAPResult), parse_results exDocU none 0 (fun _ => none) = some r →
        r.rule_details = [] := by
  intro hall
  obtain ⟨r, hr⟩ : ∃ r, parse_results exDocU none 0 (fun _ => none) = some r :=
    ⟨_, rfl⟩
  have h2 := hall r hr
  have h3 : (parse_results exDocU none 0 (fun _ => none)).map
      (fun r => r.rule_details) = some [⟨"r1", "r1", "waived", "unknown"⟩] := by
    decide
  rw [hr] at h3
  simp [h2] at h3

/-- A status text outside the seven keywords never equals `fail`. -/
theorem lookup_none_ne_fail (s : String)
    (h : status_mapping.lookup s = none) : s ≠ "fail" := by
  intro hs
  rw [hs] at h
  exact absurd h (by decide)

/-- C4 (amended): a rule-result whose result element has text that
lowercases to an unknown status keyword increments `total_rules` only,
does not fail the parse, and appends exactly one entry to the detail
list (carrying the lower-cased status text): a detail slot is consumed
whenever the result element has text, matched keyword or not. -/
theorem C4_amended_unknown_status (b : Xml) (st : Metrics × List RuleDetail)
    (rr re : Xml) (t : String)
    (h1 : findChildTag rr (qn "result") = some re)
    (h2 : re.text = some t)
    (h3 : status_mapping.lookup (pyLower t) = none)
    (h4 : pyContainsChar (rr.getAttr "idref" "") '\"' = false) :
    ∃ d : RuleDetail,
      processRuleResult b st rr = some (st.1.bump "total_rules", st.2 ++ [d]) ∧
      d.result = pyLower t := by
  unfold processRuleResult
  rw [h1]
  simp only [h2]
  have hnb : statusBump (st.1.bump "total_rules") (pyLower t) =
      st.1.bump "total_rules" := by
    unfold statusBump
    rw [h3]
  rw [hnb, h4]
  simp only [Bool.false_eq_true, if_false]
  rw [if_neg (lookup_none_ne_fail (pyLower t) h3)]
  exact ⟨_, rfl, rfl⟩

/-- C4 (witness): the amended statement instantiated on `exDocU`'s
rule-result. -/
theorem C4_amended_unknown_status_witness :
    ∃ d : RuleDetail,
      processRuleResult exBench (initMetrics, []) exRR =
        some ((initMetrics).bump "total_rules", [] ++ [d]) ∧
      d.result = pyLower "waived" :=
  C4_amended_unknown_status exBench (initMetrics, []) exRR exRE "waived"
    rfl rfl (by decide) (by decide)

/-- C5 (counterexample): with a state recording that no successful
update has ever happened, the daemon's `/metrics` handler answers 200, not
503. -/
theorem C5_counterexample :
    MetricsHTTPHandler.do_GET ⟨false, []⟩ "/metrics" =
      ⟨200, some "text/plain; charset=utf-8"⟩ ∧ (200 : Nat) ≠ 503 :=
  ⟨rfl, by decide⟩

/-- C5 (amended): the daemon's `/metrics` handler answers 200 with the
text exposition whatever the update history — it has no 503 branch; only
the standalone `metrics_server.py` handler answers 503, and only while its
module-global `exporter` object is unset, a condition independent of
whether a successful update has happened. -/
theorem C5_amended_metrics_codes (st : ExporterState) (ready : Bool) :
    MetricsHTTPHandler.do_GET st "/metrics" =
      ⟨200, some "text/plain; charset=utf-8"⟩ ∧
    MetricsHandler.do_GET ready "/metrics" =
      (if ready then ⟨200, some "text/plain; charset=utf-8"⟩
       else ⟨503, none⟩) := by
  refine ⟨rfl, ?_⟩
  cases ready <;> rfl

/-- C6: `SCAPScanner.scan` keeps the results file and returns its path
for scanner exit codes 0, 1 and 2, and for any exit code greater than 2
it unlinks the results file and returns `None`, so no metrics update can
happen for that cycle. -/
theorem C6_scan_exit_codes (c : Int) (f : String) :
    ((c = 0 ∨ c = 1 ∨ c = 2) →
      scanDecision c f = (ScanOutcome.success f, false)) ∧
    (2 < c → scanDecision c f = (ScanOutcome.failure, true)) := by
  constructor
  · rintro (rfl | rfl | rfl) <;> rfl
  · intro hc
    unfold scanDecision
    rw [if_pos hc]

mutual

/-- If no element of a subtree satisfies `p`, the descendant search under
it comes back empty. -/
theorem findDesc_eq_none (p : Xml → Bool) (x : Xml)
    (h : ∀ y ∈ x.allElems, p y = false) : x.findDesc p = none :=
  match x with
  | .elem t a tx ch =>
    findDescList_eq_none p ch (fun y hy =>
      h y (by rw [Xml.allElems]; exact List.mem_cons_of_mem _ hy))

theorem findDescList_eq_none (p : Xml → Bool) (l : List Xml)
    (h : ∀ y ∈ Xml.allElemsList l, p y = false) :
    Xml.findDescList p l = none :=
  match l with
  | [] => rfl
  | c :: rest => by
    have hsplit : ∀ y, y ∈ c.allElems ∨ y ∈ Xml.allElemsList rest →
        p y = false := by
      intro y hy
      apply h
      rw [Xml.allElemsList]
      rcases hy with hy | hy
      · exact List.mem_append_left _ hy
      · exact List.mem_append_right _ hy
    have hc : p c = false := by
      apply hsplit
      left
      cases c with
      | elem t a tx ch => rw [Xml.allElems]; exact List.mem_cons_self _ _
    unfold Xml.findDescList
    rw [hc]
    simp only [Bool.false_eq_true, if_false]
    rw [findDesc_eq_none p c (fun y hy => hsplit y (Or.inl hy))]
    exact findDescList_eq_none p rest (fun y hy => hsplit y (Or.inr hy))

end

/-- C7: a well-formed document containing no namespace-qualified
`Benchmark` element anywhere fails to parse: `parse_results` returns
`None`, whatever the rest of the document looks like. -/
theorem C7_missing_benchmark (root : Xml) (hn : Option String) (now : ℚ)
    (iso : String → Option ℚ)
    (h : ∀ x ∈ root.allElems, x.tag ≠ qn "Benchmark") :
    parse_results root hn now iso = none := by
  unfold parse_results
  rw [findDesc_eq_none (fun x => x.tag == qn "Benchmark") root
    (fun y hy => by simpa using h y hy)]

/-- A valid test-result document with no `Benchmark` element. -/
def exDocNoBench : Xml :=
  .elem (qn "TestResult") [] none
    [.elem (qn "profile") [("idref", "prof")] none [],
     .elem (qn "target") [] (some "host1") []]

/-- C7 (witness): the missing-benchmark failure instantiated on
`exDocNoBench`. -/
theorem C7_missing_benchmark_witness :
    parse_results exDocNoBench none 0 (fun _ => none) = none :=
  C7_missing_benchmark exDocNoBench none 0 (fun _ => none) (by decide)

/-- A `SCAPResult` with its `scan_time` field blanked, leaving every
`time.time()`-independent field. -/
def eraseTime (r : SCAPResult) : SCAPResult := { r with scan_time := 0 }

/-- The document's start-time element exists and its text survives the
`Z`-normalization and `fromisoformat` round, so `scan_time` never falls
back to `time.time()`. -/
def startTimeResolved (root : Xml) (iso : String → Option ℚ) : Prop :=
  ∃ tr ste s q, testResultOf root = some tr ∧
    findChildTag tr (qn "start-time") = some ste ∧
    ste.text = some s ∧ iso (pyReplace s "Z" "+00:00") = some q

/-- C8: parsing the same document twice with the same caller-supplied
hostname yields results identical in every field except possibly
`scan_time`, and when the start-time element is present and parseable the
two results are identical outright — only the `now` fallback can differ
between runs. -/
theorem C8_reparse_deterministic (root : Xml) (hn : Option String)
    (iso : String → Option ℚ) (n1 n2 : ℚ) :
    (parse_results root hn n1 iso).map eraseTime =
      (parse_results root hn n2 iso).map eraseTime ∧
    (startTimeResolved root iso →
      parse_results root hn n1 iso = parse_results root hn n2 iso) := by
  constructor
  · unfold parse_results
    cases hb : root.findDesc (fun x => x.tag == qn "Benchmark") with
    | none => rfl
    | some benchmark =>
      dsimp only
      cases htr : testResultOf root with
      | none => rfl
      | some tr =>
        dsimp only
        cases hp : processRuleResults benchmark (initMetrics, [])
            (List.filter (fun c => c.tag == qn "rule-result") tr.children) with
        | none => rfl
        | some st =>
          obtain ⟨m, dl⟩ := st
          simp [eraseTime]
  · rintro ⟨tr, ste, s, q, htr, hst, hs, hq⟩
    unfold parse_results
    cases hb : root.findDesc (fun x => x.tag == qn "Benchmark") with
    | none => rfl
    | some benchmark =>
      dsimp only
      rw [htr]
      dsimp only
      simp only [hst, hs, hq, Option.getD_some]

/-- C8 (witness): the determinism statement instantiated on `exDoc0`
(whose start-time resolves under `exIso`) at two different clock values,
together with the fact that the start-time really resolves. -/
theorem C8_reparse_deterministic_witness :
    startTimeResolved exDoc0 exIso ∧
    parse_results exDoc0 none 3 exIso = parse_results exDoc0 none 7 exIso :=
  have hres : startTimeResolved exDoc0 exIso :=
    ⟨exDoc0, .elem (qn "start-time") [] (some "2024-01-01T12:00:00Z") [],
     "2024-01-01T12:00:00Z", 1704110400, rfl, rfl, rfl, by decide⟩
  ⟨hres, (C8_reparse_deterministic exDoc0 none exIso 3 7).2 hres⟩

/-- A stored result for host `a_b`, profile `c`. -/
def exResultA : SCAPResult :=
  ⟨some "a_b", "c", 0, 0, 0, 0, 0, 0, 0, 0, 0, 0, 0, 0, 0, 0,
   "bidA", "1.0", []⟩

/-- A stored result for host `a`, profile `b_c` — a different
(hostname, profile) pair with the same storage key. -/
def exResultB : SCAPResult :=
  ⟨some "a", "b_c", 0, 0, 0, 0, 0, 0, 0, 0, 0, 0, 0, 0, 0, 0,
   "bidB", "2.0", []⟩

/-- C9: `update_metrics` keys `latest_results` by
`hostname + "_" + profile`; the distinct pairs `("a_b", "c")` and
`("a", "b_c")` collide on the key `a_b_c`, so an update for the second
overwrites the stored record of the first and `/results` serves the new
record under the shared key. -/
theorem C9_store_key_collision :
    storeKey exResultA = storeKey exResultB ∧
    (pyStr exResultA.hostname, exResultA.profile) ≠
      (pyStr exResultB.hostname, exResultB.profile) ∧
    (updateStore (updateStore [] exResultA) exResultB).lookup
      (storeKey exResultA) = some exResultB ∧
    exResultB ≠ exResultA := by
  refine ⟨rfl, by decide, rfl, ?_⟩
  intro h
  have := congrArg SCAPResult.benchmark_id h
  exact absurd this (by decide)

/-- If some rule-result in the processed list has a result element with no
text, the whole loop aborts with `None`. -/
theorem processRuleResults_abort (b : Xml) (l : List Xml)
    (st : Metrics × List RuleDetail) (rr re : Xml) (hrr : rr ∈ l)
    (hre : findChildTag rr (qn "result") = some re) (ht : re.text = none) :
    processRuleResults b st l = none := by
  induction l generalizing st with
  | nil => cases hrr
  | cons c rest ih =>
    unfold processRuleResults
    rcases List.mem_cons.mp hrr with rfl | hmem
    · have hstep : processRuleResult b st rr = none := by
        unfold processRuleResult
        rw [hre]
        simp only [ht]
      rw [hstep]
    · cases hstep : processRuleResult b st c with
      | none => rfl
      | some st2 => exact ih st2 hmem

/-- C10: whenever some rule-result contains a result element that is
present but has no text, `parse_results` abandons the entire parse and
returns `None` (discarding every other rule-result) instead of skipping
that one rule; the function never propagates an exception — the modelled
outermost handler turns every such abort into `None`. -/
theorem C10_empty_result_text_aborts (root : Xml) (hn : Option String)
    (now : ℚ) (iso : String → Option ℚ) (tr rr re : Xml)
    (htr : testResultOf root = some tr)
    (hrr : rr ∈ tr.children.filter (fun c => c.tag == qn "rule-result"))
    (hre : findChildTag rr (qn "result") = some re)
    (ht : re.text = none) :
    parse_results root hn now iso = none := by
  unfold parse_results
  cases hb : root.findDesc (fun x => x.tag == qn "Benchmark") with
  | none => rfl
  | some benchmark =>
    dsimp only
    rw [htr]
    dsimp only
    rw [processRuleResults_abort benchmark _ _ rr re hrr hre ht]

/-- A test-result document whose single rule-result has an empty result
element (no text). -/
def exDocEmptyText : Xml :=
  .elem (qn "TestResult") [] none
    [.elem (qn "benchmark") [] none [exBench],
     .elem (qn "rule-result") [("idref", "r0")] none
       [.elem (qn "result") [] none []],
     .elem (qn "rule-result") [("idref", "r1")] none
       [.elem (qn "result") [] (some "pass") []]]

/-- C10 (witness): the abort instantiated on `exDocEmptyText`,
whose first rule-result has a textless result element while the second
would have counted as a pass. -/
theorem C10_empty_result_text_aborts_witness :
    parse_results exDocEmptyText none 0 (fun _ => none) = none :=
  C10_empty_result_text_aborts exDocEmptyText none 0 (fun _ => none)
    exDocEmptyText
    (.elem (qn "rule-result") [("idref", "r0")] none
      [.elem (qn "result") [] none []])
    (.elem (qn "result") [] none [])
    rfl
    (by
      rw [List.mem_filter]
      exact ⟨List.mem_cons_of_mem _ (List.mem_cons_self _ _), by decide⟩)
    rfl rfl

end ScapExporter
